import Mathlib

set_option autoImplicit false

/-!
# Verification of the profile store service (src/backend/server.js)

Shallow embedding of the Express/multer backend: the filesystem store is an
association list of per-profile directories, each holding a metadata file
(absent, corrupt, or a parsed record) and a list of plain files (photos).
The handlers POST /api/profiles, GET /api/profiles, GET /api/profiles/:id
and PUT /api/profiles/:id are modelled as pure functions over that state.
JavaScript strings are Lean strings; ISO timestamps are abstracted as Nat
instants supplied by the caller (the value of new Date() at handler time);
the JS Date parse used only as the listing sort key is a parameter
dv : Option String -> Int of the listing function.
-/

/-- A profile's metadata record, the shape written by the handlers
(server.js lines 104-114).  `contact` is `Option String` because the code
stores `null` for a falsy contact; `date` is `Option String` because the
PUT handler copies `req.body.date` verbatim and `JSON.stringify` drops the
key when it is `undefined`.  `createdAt`/`updatedAt` are Nat instants. -/
structure ProfileData where
  id : String
  name : String
  address : String
  contact : Option String
  photo : String
  date : Option String
  note : String
  createdAt : Nat
  updatedAt : Nat
deriving Repr, DecidableEq

/-- State of the `profile.json` path inside one profile directory:
missing, present but not parseable as the expected record (JSON.parse or a
later field access throws), or a parsed record. -/
inductive JsonFile where
  | absent : JsonFile
  | corrupt : JsonFile
  | valid : ProfileData → JsonFile
deriving Repr, DecidableEq

/-- One subdirectory of the profiles store: its metadata file state and the
names of the other plain files it holds (the photo lives here). -/
structure DirEntry where
  json : JsonFile
  files : List String
deriving Repr, DecidableEq

/-- The profiles store directory: subdirectory name (the profile id) paired
with its contents, in readdir order. -/
abbrev Store := List (String × DirEntry)

/-- Whole filesystem state the handlers touch: the profiles store plus the
multer temp staging directory (file names only). -/
structure FsState where
  store : Store
  temp : List String
deriving DecidableEq

/-- Directory lookup by name, first match (models path resolution of
`profilesDir/id`). -/
def findDir : Store → String → Option DirEntry
  | [], _ => none
  | (k, e) :: rest, id => if k = id then some e else findDir rest id

/-- Replace the contents of the named directory (first match), leaving the
rest of the store untouched. -/
def setDir : Store → String → DirEntry → Store
  | [], _, _ => []
  | (k, e) :: rest, id, ne => if k = id then (id, ne) :: rest else (k, e) :: setDir rest id ne

/-! Structural character-list versions of the string operations the
handlers use, chosen so that every definition evaluates by kernel
reduction (the core library loops on byte positions instead). -/

/-- s.startsWith(p). -/
def strStartsWith (s p : String) : Bool := p.toList.isPrefixOf s.toList

/-- s === the empty string. -/
def strIsEmpty (s : String) : Bool := s.toList.isEmpty

/-- JS String.prototype.trim: strip whitespace from both ends. -/
def jsTrim (s : String) : String :=
  String.mk ((((s.toList.dropWhile Char.isWhitespace).reverse).dropWhile
    Char.isWhitespace).reverse)

/-- JS String.prototype.toLowerCase (ASCII range). -/
def lowerStr (s : String) : String := String.mk (s.toList.map Char.toLower)

/-- JS String.prototype.substring(0, n). -/
def takeChars (s : String) (n : Nat) : String := String.mk (s.toList.take n)

/-- JS String.prototype.length. -/
def strLength (s : String) : Nat := s.toList.length

/-- JavaScript truthiness test on an optional body field: `!x` is true
exactly when the field is `undefined` or the empty string. -/
def falsyStr : Option String → Bool
  | none => true
  | some s => strIsEmpty s

/-- Model of Node's `path.extname`: the suffix from the last dot of the
name, empty when there is no dot or the only dot is the leading one. -/
def extname (s : String) : String :=
  let cs := s.toList
  if ('.') ∈ cs then
    let i := cs.length - 1 - cs.reverse.indexOf ('.')
    if i = 0 then "" else String.mk (cs.drop i)
  else ""

/-- `contact ? contact.trim() : null` (server.js lines 108 and 218):
undefined or empty-string contact becomes null, any other value is
trimmed — so a whitespace-only contact is stored as the empty string. -/
def jsContact : Option String → Option String
  | none => none
  | some s => if strIsEmpty s then none else some (jsTrim s)

/-- The normalized stored photo filename: `photo` + lowercased extension of
the uploaded file's original name (server.js lines 98-99 and 232-233). -/
def normPhotoName (originalname : String) : String :=
  "photo" ++ lowerStr (extname originalname)

/-- An uploaded file as multer presents it. -/
structure UploadedFile where
  originalname : String
  mimetype : String
  size : Nat
deriving Repr, DecidableEq

def imagePrefix : String := "image/"

/-- multer's 5 MB file size cap (server.js line 59). -/
def sizeLimit : Nat := 5 * 1024 * 1024

/-- The multer stage accepts a file iff its declared mimetype starts with
image/ and its size is within the cap. -/
def multerAccepts (f : UploadedFile) : Prop :=
  strStartsWith f.mimetype imagePrefix = true ∧ f.size ≤ sizeLimit

instance (f : UploadedFile) : Decidable (multerAccepts f) := by
  unfold multerAccepts
  infer_instance

/-- Body + file of a POST or PUT request; `none` is an absent field. -/
structure ProfileRequest where
  name : Option String
  address : Option String
  contact : Option String
  date : Option String
  note : Option String
  file : Option UploadedFile
deriving Repr, DecidableEq

/-- Outcome of POST /api/profiles as observed by the client. -/
inductive CreateOutcome where
  | unsupportedMedia : CreateOutcome
  | tooLarge : CreateOutcome
  | validationError : CreateOutcome
  | created : String → CreateOutcome
deriving Repr, DecidableEq

/-- HTTP status of each create outcome.  The fileFilter rejection is a
plain Error, not a MulterError, so the error middleware (server.js lines
287-302) does not match it and answers 500; only LIMIT_FILE_SIZE gets
400. -/
def createStatus : CreateOutcome → Nat
  | CreateOutcome.unsupportedMedia => 500
  | CreateOutcome.tooLarge => 400
  | CreateOutcome.validationError => 400
  | CreateOutcome.created _ => 200

/-- POST /api/profiles (server.js lines 80-133) including the multer stage:
filter and size check, then the accepted upload lands in the temp dir, then
the handler validates with JS truthiness, and on success makes the profile
directory, renames the photo in, and writes the metadata record.  `tmp` is
the unique temp filename multer picks, `newId` the fresh uuid, `now` the
current instant. -/
def postProfiles (req : ProfileRequest) (fs : FsState) (tmp : String) (newId : String)
    (now : Nat) : CreateOutcome × FsState :=
  match req.file with
  | none =>
      -- no upload: handler check !req.file fires, nothing was staged
      (CreateOutcome.validationError, fs)
  | some f =>
      if strStartsWith f.mimetype imagePrefix = false then
        (CreateOutcome.unsupportedMedia, fs)
      else if sizeLimit < f.size then
        (CreateOutcome.tooLarge, fs)
      else
        -- upload accepted: multer has written it to the temp dir
        let staged : FsState := { fs with temp := tmp :: fs.temp }
        if falsyStr req.name || falsyStr req.address || falsyStr req.date
            || falsyStr req.note then
          -- 400 returned with the staged file left behind
          (CreateOutcome.validationError, staged)
        else
          let photoName := normPhotoName f.originalname
          let data : ProfileData :=
            { id := newId
              name := jsTrim (req.name.getD "")
              address := jsTrim (req.address.getD "")
              contact := jsContact req.contact
              photo := photoName
              date := req.date
              note := jsTrim (req.note.getD "")
              createdAt := now
              updatedAt := now }
          let entry : DirEntry := { json := JsonFile.valid data, files := [photoName] }
          (CreateOutcome.created newId,
            { store := fs.store ++ [(newId, entry)], temp := fs.temp })

/-- The listing summary shape (server.js lines 147-153). -/
structure Summary where
  id : String
  name : String
  date : Option String
  photo : String
  note : String
deriving Repr, DecidableEq

def imagesRoute : String := "/images/"
def slash : String := "/"
def ellipsis : String := "..."

/-- One summary as the GET /api/profiles loop builds it: derived photo URL
and the note cut to its first 50 characters with an ellipsis appended
exactly when it was longer. -/
def summarize (d : ProfileData) : Summary :=
  { id := d.id
    name := d.name
    date := d.date
    photo := imagesRoute ++ d.id ++ slash ++ d.photo
    note := takeChars d.note 50 ++ (if 50 < strLength d.note then ellipsis else "") }

def listFailMsg : String := "Failed to fetch profiles"

/-- The collection loop of GET /api/profiles (server.js lines 143-155):
skip a directory whose profile.json is absent; a corrupt one makes
JSON.parse throw, which escapes to the catch and fails the whole request;
a valid one contributes a summary.  The photo file itself is never
checked. -/
def collectSummaries : Store → Except String (List Summary)
  | [] => Except.ok []
  | (_, e) :: rest =>
      match e.json with
      | JsonFile.absent => collectSummaries rest
      | JsonFile.corrupt => Except.error listFailMsg
      | JsonFile.valid d => (collectSummaries rest).map (fun l => summarize d :: l)

/-- The sort comparator of server.js line 159: a before b exactly when its
parsed date is the larger, i.e. newest first. -/
def dateDesc (dv : Option String → Int) (a b : Summary) : Prop :=
  dv b.date ≤ dv a.date

instance (dv : Option String → Int) : DecidableRel (dateDesc dv) := by
  unfold dateDesc
  infer_instance

instance (dv : Option String → Int) : IsTotal Summary (dateDesc dv) :=
  ⟨fun a b => Int.le_total (dv b.date) (dv a.date)⟩

instance (dv : Option String → Int) : IsTrans Summary (dateDesc dv) :=
  ⟨fun _ _ _ hab hbc => le_trans hbc hab⟩

/-- GET /api/profiles (server.js lines 136-170): collect one summary per
directory with a readable record, then sort by parsed date descending.
`dv` abstracts new Date(s).getTime(); the engine's sort is modelled by
insertion sort, which likewise returns a date-descending permutation with
tie order unspecified. -/
def getAllProfiles (dv : Option String → Int) (st : Store) : Except String (List Summary) :=
  (collectSummaries st).map (List.insertionSort (dateDesc dv))

/-- Outcome of GET /api/profiles/:id. -/
inductive GetResult where
  | notFound : GetResult
  | serverError : GetResult
  | found : ProfileData → String → GetResult
deriving Repr, DecidableEq

/-- GET /api/profiles/:id (server.js lines 173-196): 404 unless the
profile.json path exists; then parse it (a corrupt file throws to the
catch, a 500) and answer the record with its derived photoUrl.  The photo
file itself is never checked. -/
def getProfile (id : String) (st : Store) : GetResult :=
  match findDir st id with
  | none => GetResult.notFound
  | some e =>
      match e.json with
      | JsonFile.absent => GetResult.notFound
      | JsonFile.corrupt => GetResult.serverError
      | JsonFile.valid d => GetResult.found d (imagesRoute ++ d.id ++ slash ++ d.photo)

/-- Outcome of PUT /api/profiles/:id as observed by the client. -/
inductive UpdateOutcome where
  | unsupportedMedia : UpdateOutcome
  | tooLarge : UpdateOutcome
  | notFound : UpdateOutcome
  | serverError : UpdateOutcome
  | updated : UpdateOutcome
deriving Repr, DecidableEq

/-- PUT /api/profiles/:id (server.js lines 199-256) including the multer
stage.  After staging an accepted upload the handler 404s when the
profile.json path is missing, 500s when it does not parse or when a
required text field is undefined (TypeError on .trim()), and otherwise
rewrites the text fields, refreshes updatedAt, and — when a new file was
uploaded — unlinks the old photo if present, renames the new one in under
the normalized name, and records it in the photo field. -/
def putProfiles (id : String) (req : ProfileRequest) (fs : FsState) (tmp : String)
    (now : Nat) : UpdateOutcome × FsState :=
  -- multer stage first
  match req.file with
  | some f =>
      if strStartsWith f.mimetype imagePrefix = false then
        (UpdateOutcome.unsupportedMedia, fs)
      else if sizeLimit < f.size then
        (UpdateOutcome.tooLarge, fs)
      else
        let staged : FsState := { fs with temp := tmp :: fs.temp }
        match findDir fs.store id with
        | none => (UpdateOutcome.notFound, staged)
        | some e =>
            match e.json with
            | JsonFile.absent => (UpdateOutcome.notFound, staged)
            | JsonFile.corrupt => (UpdateOutcome.serverError, staged)
            | JsonFile.valid ex =>
                if req.name.isNone || req.address.isNone || req.note.isNone then
                  (UpdateOutcome.serverError, staged)
                else
                  let newPhoto := normPhotoName f.originalname
                  let data : ProfileData :=
                    { ex with
                      name := jsTrim (req.name.getD "")
                      address := jsTrim (req.address.getD "")
                      contact := jsContact req.contact
                      date := req.date
                      note := jsTrim (req.note.getD "")
                      updatedAt := now
                      photo := newPhoto }
                  let entry : DirEntry :=
                    { json := JsonFile.valid data
                      files := newPhoto :: (e.files.erase ex.photo) }
                  (UpdateOutcome.updated,
                    { store := setDir fs.store id entry, temp := fs.temp })
  | none =>
      match findDir fs.store id with
      | none => (UpdateOutcome.notFound, fs)
      | some e =>
          match e.json with
          | JsonFile.absent => (UpdateOutcome.notFound, fs)
          | JsonFile.corrupt => (UpdateOutcome.serverError, fs)
          | JsonFile.valid ex =>
              if req.name.isNone || req.address.isNone || req.note.isNone then
                (UpdateOutcome.serverError, fs)
              else
                let data : ProfileData :=
                  { ex with
                    name := jsTrim (req.name.getD "")
                    address := jsTrim (req.address.getD "")
                    contact := jsContact req.contact
                    date := req.date
                    note := jsTrim (req.note.getD "")
                    updatedAt := now }
                let entry : DirEntry := { json := JsonFile.valid data, files := e.files }
                (UpdateOutcome.updated,
                  { store := setDir fs.store id entry, temp := fs.temp })

/-! ## Concrete fixtures used by counterexamples and witnesses -/

/-- A degenerate date-parse key (every date equal): ties only. -/
def dvZero : Option String → Int := fun _ => 0

/-- A simple concrete date-parse key for witnesses: the raw length of the
date string (absent parses to 0). -/
def dvLen : Option String → Int := fun o => Int.ofNat (o.getD "").length

def idA : String := "a"
def tmpA : String := "tmp-1"
def newIdA : String := "fresh-id"
def nowA : Nat := 7
def emptyStr : String := ""
def wsStr : String := " "
def fsEmpty : FsState := { store := [], temp := [] }

def dA : ProfileData :=
  { id := idA, name := "Ann", address := "Elm 1", contact := none,
    photo := "photo.jpg", date := some "2024-01-02", note := "hello",
    createdAt := 0, updatedAt := 0 }

/-- A store holding one directory with a metadata record but no photo
file at all. -/
def stMetaOnly : Store := [(idA, { json := JsonFile.valid dA, files := [] })]

/-- A store holding one directory whose metadata file does not parse. -/
def stCorrupt : Store := [("c", { json := JsonFile.corrupt, files := [] })]

def fImg : UploadedFile :=
  { originalname := "pic.JPG", mimetype := "image/jpeg", size := 100 }

def fPng : UploadedFile :=
  { originalname := "new.PNG", mimetype := "image/png", size := 50 }

def fText : UploadedFile :=
  { originalname := "a.txt", mimetype := "text/plain", size := 10 }

def fNoExt : UploadedFile :=
  { originalname := "pic", mimetype := "image/png", size := 3 }

def reqGood : ProfileRequest :=
  { name := some "Ann", address := some "Elm 1", contact := none,
    date := some "2024-01-01", note := some "hello", file := some fImg }

/-- Whitespace-only name: JS truthy, so it passes validation. -/
def reqWsName : ProfileRequest := { reqGood with name := some wsStr }

/-- Missing name with a valid image attached. -/
def reqNoName : ProfileRequest := { reqGood with name := none }

/-- Missing address with a valid image attached. -/
def reqNoAddr : ProfileRequest := { reqGood with address := none }

/-- Valid fields but a text/plain upload. -/
def reqText : ProfileRequest := { reqGood with file := some fText }

/-- Valid fields but an extensionless upload name. -/
def reqNoExt : ProfileRequest := { reqGood with file := some fNoExt }

/-- Whitespace-only contact field. -/
def reqWsContact : ProfileRequest := { reqGood with contact := some wsStr }

/-- The summaries of the directories holding a parsed metadata record, in
store order: what the GET /api/profiles loop pushes before sorting. -/
def validSummaries (st : Store) : List Summary :=
  st.filterMap (fun p =>
    match p.2.json with
    | JsonFile.valid d => some (summarize d)
    | _ => none)

/-! ## Helper lemmas -/

theorem collectSummaries_ok_iff (st : Store) :
    (∃ l, collectSummaries st = Except.ok l) ↔
      (∀ p ∈ st, p.2.json ≠ JsonFile.corrupt) := by
  induction st with
  | nil => simp [collectSummaries]
  | cons hd tl ih =>
      obtain ⟨k, e⟩ := hd
      cases hj : e.json with
      | absent =>
          simp only [collectSummaries, hj, List.mem_cons]
          rw [ih]
          constructor
          · intro h p hp
            rcases hp with hp | hp
            · subst hp; simp [hj]
            · exact h p hp
          · intro h p hp
            exact h p (Or.inr hp)
      | corrupt =>
          simp only [collectSummaries, hj]
          constructor
          · rintro ⟨l, hl⟩
            exact absurd hl (by simp)
          · intro h
            exact absurd hj (h (k, e) (by simp))
      | valid d =>
          simp only [collectSummaries, hj, List.mem_cons]
          constructor
          · rintro ⟨l, hl⟩
            rcases hok : collectSummaries tl with err | l2
            · rw [hok] at hl; exact absurd hl (by simp [Except.map])
            · intro p hp
              rcases hp with hp | hp
              · subst hp; simp [hj]
              · exact (ih.mp ⟨l2, hok⟩) p hp
          · intro h
            have := ih.mpr (fun p hp => h p (Or.inr hp))
            obtain ⟨l2, hl2⟩ := this
            exact ⟨summarize d :: l2, by simp [hl2, Except.map]⟩

theorem collectSummaries_eq_validSummaries (st : Store) (l : List Summary)
    (h : collectSummaries st = Except.ok l) : l = validSummaries st := by
  induction st generalizing l with
  | nil =>
      simp [collectSummaries] at h
      simp [validSummaries, h]
  | cons hd tl ih =>
      obtain ⟨k, e⟩ := hd
      cases hj : e.json with
      | absent =>
          simp only [collectSummaries, hj] at h
          simp only [validSummaries, List.filterMap_cons, hj]
          exact ih l h
      | corrupt =>
          simp only [collectSummaries, hj] at h
          exact absurd h (by simp)
      | valid d =>
          simp only [collectSummaries, hj] at h
          rcases hok : collectSummaries tl with err | l2
          · rw [hok] at h; exact absurd h (by simp [Except.map])
          · rw [hok] at h
            simp only [Except.map, Except.ok.injEq] at h
            subst h
            have hv : validSummaries ((k, e) :: tl) = summarize d :: validSummaries tl := by
              simp [validSummaries, List.filterMap_cons, hj]
            rw [hv, ih l2 hok]

theorem mem_validSummaries (st : Store) (s : Summary) :
    s ∈ validSummaries st ↔
      ∃ k e d, (k, e) ∈ st ∧ e.json = JsonFile.valid d ∧ s = summarize d := by
  unfold validSummaries
  rw [List.mem_filterMap]
  constructor
  · rintro ⟨⟨k, e⟩, hp, hs⟩
    cases hj : e.json with
    | absent => rw [hj] at hs; exact absurd hs (by simp)
    | corrupt => rw [hj] at hs; exact absurd hs (by simp)
    | valid d =>
        rw [hj] at hs
        simp only [Option.some.injEq] at hs
        exact ⟨k, e, d, hp, hj, hs.symm⟩
  · rintro ⟨k, e, d, hp, hj, hs⟩
    refine ⟨(k, e), hp, ?_⟩
    simp [hj, hs]

theorem getAllProfiles_ok (dv : Option String → Int) (st : Store) (l : List Summary)
    (h : getAllProfiles dv st = Except.ok l) :
    ∃ l0, collectSummaries st = Except.ok l0 ∧
      l = List.insertionSort (dateDesc dv) l0 := by
  unfold getAllProfiles at h
  rcases hok : collectSummaries st with err | l0
  · rw [hok] at h; exact absurd h (by simp [Except.map])
  · rw [hok] at h
    simp only [Except.map, Except.ok.injEq] at h
    exact ⟨l0, rfl, h.symm⟩

theorem findDir_setDir (st : Store) (id : String) (e ne : DirEntry)
    (h : findDir st id = some e) :
    findDir (setDir st id ne) id = some ne := by
  induction st with
  | nil => simp [findDir] at h
  | cons hd tl ih =>
      obtain ⟨k, v⟩ := hd
      by_cases hk : k = id
      · subst hk
        simp [setDir, findDir]
      · simp only [findDir, if_neg hk] at h
        simp only [setDir, if_neg hk, findDir, if_neg hk]
        exact ih h

def noteLong : String := String.mk (List.replicate 60 'x')

def dB : ProfileData :=
  { id := "b", name := "Bob", address := "Oak 2", contact := none,
    photo := "photo.png", date := some "2024-01-1", note := noteLong,
    createdAt := 0, updatedAt := 0 }

def stW2 : Store :=
  [("b", { json := JsonFile.valid dB, files := ["photo.png"] }),
   ("a", { json := JsonFile.valid dA, files := ["photo.jpg"] })]

/-! ## Claims -/

/-- C1 (counterexample): a store whose only directory holds a metadata
record but no photo file at all is nonetheless exposed as a valid profile
by both List and Get — visibility does not wait for the photo file. -/
theorem C1_counterexample :
    getAllProfiles dvZero stMetaOnly = Except.ok [summarize dA] ∧
    getProfile idA stMetaOnly =
      GetResult.found dA (imagesRoute ++ dA.id ++ slash ++ dA.photo) ∧
    (∀ p ∈ stMetaOnly, p.2.files = ([] : List String)) := by
  refine ⟨by rfl, by rfl, by decide⟩

/-- C1 (amended): visibility to List and Get is governed solely by the
presence of a parseable metadata record.  Everything List returns comes
from a directory with a valid metadata record (so a photo file without
metadata is never exposed), and any directory with a valid metadata record
is served by Get regardless of which photo files exist. -/
theorem C1_visibility (dv : Option String → Int) (st : Store) (l : List Summary)
    (hl : getAllProfiles dv st = Except.ok l) :
    (∀ s ∈ l, ∃ k e d, (k, e) ∈ st ∧ e.json = JsonFile.valid d ∧ s = summarize d) ∧
    (∀ id e d, findDir st id = some e → e.json = JsonFile.valid d →
      getProfile id st = GetResult.found d (imagesRoute ++ d.id ++ slash ++ d.photo)) := by
  constructor
  · intro s hs
    obtain ⟨l0, hc, hsort⟩ := getAllProfiles_ok dv st l hl
    have hperm := List.perm_insertionSort (dateDesc dv) l0
    rw [hsort] at hs
    have hmem : s ∈ l0 := hperm.mem_iff.mp hs
    have hv := collectSummaries_eq_validSummaries st l0 hc
    rw [hv] at hmem
    exact (mem_validSummaries st s).mp hmem
  · intro id e d hfd hj
    simp [getProfile, hfd, hj]

/-- Witness for C1_visibility at the metadata-only store. -/
theorem C1_visibility_witness :
    getProfile idA stMetaOnly =
      GetResult.found dA (imagesRoute ++ dA.id ++ slash ++ dA.photo) :=
  (C1_visibility dvZero stMetaOnly [summarize dA] (by rfl)).2 idA
    { json := JsonFile.valid dA, files := [] } dA (by rfl) (by rfl)

/-- C2: whenever List succeeds it returns exactly one summary per
directory holding a valid metadata record (as a permutation of the
collected summaries), sorted by parsed date descending, and every summary
carries the record's id, name, date, the derived photo URL, and the note
cut to its first 50 characters with an ellipsis appended exactly when the
note was longer than 50 characters. -/
theorem C2_list_spec (dv : Option String → Int) (st : Store) (l : List Summary)
    (hl : getAllProfiles dv st = Except.ok l) :
    List.Perm l (validSummaries st) ∧
    List.Sorted (dateDesc dv) l ∧
    (∀ s ∈ l, ∃ k e d, (k, e) ∈ st ∧ e.json = JsonFile.valid d ∧
      s.id = d.id ∧ s.name = d.name ∧ s.date = d.date ∧
      s.photo = imagesRoute ++ d.id ++ slash ++ d.photo ∧
      s.note = takeChars d.note 50 ++ (if 50 < strLength d.note then ellipsis else "")) := by
  obtain ⟨l0, hc, hsort⟩ := getAllProfiles_ok dv st l hl
  have hvs := collectSummaries_eq_validSummaries st l0 hc
  subst hsort
  refine ⟨?_, ?_, ?_⟩
  · rw [← hvs]
    exact List.perm_insertionSort (dateDesc dv) l0
  · exact List.sorted_insertionSort (dateDesc dv) l0
  · intro s hs
    have hmem : s ∈ l0 := (List.perm_insertionSort (dateDesc dv) l0).mem_iff.mp hs
    rw [hvs] at hmem
    obtain ⟨k, e, d, hke, hj, hsd⟩ := (mem_validSummaries st s).mp hmem
    subst hsd
    exact ⟨k, e, d, hke, hj, rfl, rfl, rfl, rfl, rfl⟩

/-- Witness for C2_list_spec: a two-profile store where the later date
sorts first and the 60-character note gets truncated. -/
theorem C2_list_spec_witness :
    List.Perm [summarize dA, summarize dB] (validSummaries stW2) ∧
    List.Sorted (dateDesc dvLen) [summarize dA, summarize dB] ∧
    (∀ s ∈ [summarize dA, summarize dB], ∃ k e d, (k, e) ∈ stW2 ∧
      e.json = JsonFile.valid d ∧
      s.id = d.id ∧ s.name = d.name ∧ s.date = d.date ∧
      s.photo = imagesRoute ++ d.id ++ slash ++ d.photo ∧
      s.note = takeChars d.note 50 ++ (if 50 < strLength d.note then ellipsis else "")) :=
  C2_list_spec dvLen stW2 [summarize dA, summarize dB] (by rfl)

/-- C7 (counterexample): a directory whose metadata file exists but does
not parse makes the whole List request fail (the JSON.parse exception
reaches the catch), rather than being silently skipped. -/
theorem C7_counterexample :
    getAllProfiles dvZero stCorrupt = Except.error listFailMsg := by
  rfl

/-- C7 (amended): List succeeds exactly when no directory holds an
unparseable metadata file — a directory with no metadata file at all is
silently skipped and contributes nothing, while an unparseable one always
fails the whole request. -/
theorem C7_list_skip (dv : Option String → Int) (st : Store) :
    ((∃ l, getAllProfiles dv st = Except.ok l) ↔
      (∀ p ∈ st, p.2.json ≠ JsonFile.corrupt)) ∧
    (∀ k files rest,
      getAllProfiles dv ((k, { json := JsonFile.absent, files := files }) :: rest) =
        getAllProfiles dv rest) := by
  constructor
  · rw [← collectSummaries_ok_iff]
    constructor
    · rintro ⟨l, hl⟩
      obtain ⟨l0, hc, _⟩ := getAllProfiles_ok dv st l hl
      exact ⟨l0, hc⟩
    · rintro ⟨l0, hc⟩
      refine ⟨List.insertionSort (dateDesc dv) l0, ?_⟩
      unfold getAllProfiles
      rw [hc]
      rfl
  · intro k files rest
    rfl

/-- Witness for C7_list_skip: prepending a metadata-less directory leaves
the listing unchanged. -/
theorem C7_list_skip_witness :
    getAllProfiles dvZero ((idA, { json := JsonFile.absent, files := [] }) :: stMetaOnly) =
      getAllProfiles dvZero stMetaOnly :=
  (C7_list_skip dvZero stMetaOnly).2 idA [] stMetaOnly

/-- Full characterization of a successful POST: the profile directory is
appended with the normalized photo file and the record the handler builds,
and the staged temp file is gone (renamed away). -/
theorem postProfiles_success (req : ProfileRequest) (f : UploadedFile) (fs : FsState)
    (tmp newId : String) (now : Nat)
    (hf : req.file = some f) (hacc : multerAccepts f)
    (hn : falsyStr req.name = false) (ha : falsyStr req.address = false)
    (hd : falsyStr req.date = false) (ht : falsyStr req.note = false) :
    postProfiles req fs tmp newId now =
      (CreateOutcome.created newId,
        { store := fs.store ++
            [(newId,
              { json := JsonFile.valid
                  { id := newId
                    name := jsTrim (req.name.getD "")
                    address := jsTrim (req.address.getD "")
                    contact := jsContact req.contact
                    photo := normPhotoName f.originalname
                    date := req.date
                    note := jsTrim (req.note.getD "")
                    createdAt := now
                    updatedAt := now }
                files := [normPhotoName f.originalname] })]
          temp := fs.temp }) := by
  obtain ⟨him, hsz⟩ := hacc
  unfold postProfiles
  rw [hf]
  simp [him, Nat.not_lt.mpr hsz, hn, ha, hd, ht]

/-- C3 (counterexample): a whitespace-only name is truthy in JS, so the
request passes validation and a profile is created (with the name trimmed
to the empty string), contradicting rejection of values empty after
trimming. -/
theorem C3_counterexample :
    (postProfiles reqWsName fsEmpty tmpA newIdA nowA).1 = CreateOutcome.created newIdA ∧
    (postProfiles reqWsName fsEmpty tmpA newIdA nowA).2.store ≠ fsEmpty.store := by
  exact ⟨by rfl, by decide⟩

/-- C3 (amended): a required field that is absent or exactly the empty
string, or a missing upload, makes Create answer the validation 400 and
leave the profile store unchanged; whitespace-only values are not caught
by this check. -/
theorem C3_validation (req : ProfileRequest) (fs : FsState) (tmp newId : String) (now : Nat)
    (hok : ∀ f, req.file = some f → multerAccepts f)
    (hbad : falsyStr req.name = true ∨ falsyStr req.address = true ∨
      falsyStr req.date = true ∨ falsyStr req.note = true ∨ req.file = none) :
    (postProfiles req fs tmp newId now).1 = CreateOutcome.validationError ∧
    (postProfiles req fs tmp newId now).2.store = fs.store := by
  cases hf : req.file with
  | none =>
      unfold postProfiles
      rw [hf]
      exact ⟨rfl, rfl⟩
  | some f =>
      obtain ⟨him, hsz⟩ := hok f hf
      have hb : (falsyStr req.name || falsyStr req.address || falsyStr req.date
          || falsyStr req.note) = true := by
        rcases hbad with h | h | h | h | h
        · simp [h]
        · simp [h]
        · simp [h]
        · simp [h]
        · rw [hf] at h; simp at h
      unfold postProfiles
      rw [hf]
      simp [him, Nat.not_lt.mpr hsz, hb]

/-- Witness for C3_validation: missing name with a valid image. -/
theorem C3_validation_witness :
    (postProfiles reqNoName fsEmpty tmpA newIdA nowA).1 = CreateOutcome.validationError ∧
    (postProfiles reqNoName fsEmpty tmpA newIdA nowA).2.store = fsEmpty.store :=
  C3_validation reqNoName fsEmpty tmpA newIdA nowA
    (by
      intro f hf
      have hsome : some fImg = some f := hf
      rw [← Option.some.inj hsome]
      decide)
    (Or.inl (by rfl))

/-- C4 (counterexample): a Create that fails validation while carrying an
accepted upload is not filesystem-neutral — multer has already staged the
file in the temp directory and the 400 path leaves it there. -/
theorem C4_counterexample :
    (postProfiles reqNoName fsEmpty tmpA newIdA nowA).1 = CreateOutcome.validationError ∧
    (postProfiles reqNoName fsEmpty tmpA newIdA nowA).2 ≠ fsEmpty ∧
    (postProfiles reqNoName fsEmpty tmpA newIdA nowA).2.temp = tmpA :: fsEmpty.temp := by
  exact ⟨by rfl, by decide, by rfl⟩

/-- C4 (amended): a validation failure never touches the profile store;
the temp staging directory is untouched when no file was uploaded, but
keeps the staged upload when one was accepted. -/
theorem C4_validation_fs (req : ProfileRequest) (fs : FsState) (tmp newId : String) (now : Nat)
    (hok : ∀ f, req.file = some f → multerAccepts f)
    (hbad : falsyStr req.name = true ∨ falsyStr req.address = true ∨
      falsyStr req.date = true ∨ falsyStr req.note = true ∨ req.file = none) :
    (postProfiles req fs tmp newId now).2.store = fs.store ∧
    (req.file = none → (postProfiles req fs tmp newId now).2.temp = fs.temp) ∧
    (∀ f, req.file = some f →
      (postProfiles req fs tmp newId now).2.temp = tmp :: fs.temp) := by
  cases hf : req.file with
  | none =>
      unfold postProfiles
      rw [hf]
      refine ⟨rfl, fun _ => rfl, ?_⟩
      intro f h
      simp at h
  | some f =>
      obtain ⟨him, hsz⟩ := hok f hf
      have hb : (falsyStr req.name || falsyStr req.address || falsyStr req.date
          || falsyStr req.note) = true := by
        rcases hbad with h | h | h | h | h
        · simp [h]
        · simp [h]
        · simp [h]
        · simp [h]
        · rw [hf] at h; simp at h
      unfold postProfiles
      rw [hf]
      simp [him, Nat.not_lt.mpr hsz, hb]

/-- Witness for C4_validation_fs: missing address with a valid image. -/
theorem C4_validation_fs_witness :
    (postProfiles reqNoAddr fsEmpty tmpA newIdA nowA).2.store = fsEmpty.store ∧
    (reqNoAddr.file = none → (postProfiles reqNoAddr fsEmpty tmpA newIdA nowA).2.temp = fsEmpty.temp) ∧
    (∀ f, reqNoAddr.file = some f →
      (postProfiles reqNoAddr fsEmpty tmpA newIdA nowA).2.temp = tmpA :: fsEmpty.temp) :=
  C4_validation_fs reqNoAddr fsEmpty tmpA newIdA nowA
    (by
      intro f hf
      have hsome : some fImg = some f := hf
      rw [← Option.some.inj hsome]
      decide)
    (Or.inr (Or.inl (by rfl)))

/-- C6 (counterexample): a text/plain upload with otherwise valid fields is
rejected and no profile is created, but the response is the generic 500 of
the error middleware, not a 4xx. -/
theorem C6_counterexample :
    (postProfiles reqText fsEmpty tmpA newIdA nowA).1 = CreateOutcome.unsupportedMedia ∧
    createStatus (postProfiles reqText fsEmpty tmpA newIdA nowA).1 = 500 ∧
    (postProfiles reqText fsEmpty tmpA newIdA nowA).2 = fsEmpty := by
  exact ⟨by rfl, by rfl, by rfl⟩

/-- C6 (amended): an upload whose declared mimetype does not start with
image/ makes Create fail before touching the filesystem and no profile is
created, but the fileFilter error is not a MulterError, so the error
middleware maps it to the generic 500 rather than a 4xx. -/
theorem C6_nonimage (req : ProfileRequest) (f : UploadedFile) (fs : FsState)
    (tmp newId : String) (now : Nat)
    (hf : req.file = some f) (him : strStartsWith f.mimetype imagePrefix = false) :
    postProfiles req fs tmp newId now = (CreateOutcome.unsupportedMedia, fs) ∧
    createStatus (postProfiles req fs tmp newId now).1 = 500 := by
  unfold postProfiles
  rw [hf]
  simp [him, createStatus]

/-- Witness for C6_nonimage at the text/plain upload. -/
theorem C6_nonimage_witness :
    postProfiles reqText fsEmpty tmpA newIdA nowA = (CreateOutcome.unsupportedMedia, fsEmpty) ∧
    createStatus (postProfiles reqText fsEmpty tmpA newIdA nowA).1 = 500 :=
  C6_nonimage reqText fText fsEmpty tmpA newIdA nowA (by rfl) (by rfl)

/-- Full characterization of a successful PUT carrying a replacement
image: old photo unlinked (erase tolerates its absence), new photo renamed
in under the normalized name, record rewritten with updatedAt refreshed. -/
theorem putProfiles_success_file (id : String) (req : ProfileRequest) (f : UploadedFile)
    (fs : FsState) (tmp : String) (now : Nat) (e : DirEntry) (ex : ProfileData)
    (hf : req.file = some f) (hacc : multerAccepts f)
    (hd : findDir fs.store id = some e) (hj : e.json = JsonFile.valid ex)
    (hn : req.name.isNone = false) (ha : req.address.isNone = false)
    (ht : req.note.isNone = false) :
    putProfiles id req fs tmp now =
      (UpdateOutcome.updated,
        { store := setDir fs.store id
            { json := JsonFile.valid
                { ex with
                  name := jsTrim (req.name.getD "")
                  address := jsTrim (req.address.getD "")
                  contact := jsContact req.contact
                  date := req.date
                  note := jsTrim (req.note.getD "")
                  updatedAt := now
                  photo := normPhotoName f.originalname }
              files := normPhotoName f.originalname :: e.files.erase ex.photo }
          temp := fs.temp }) := by
  obtain ⟨him, hsz⟩ := hacc
  unfold putProfiles
  rw [hf]
  simp [him, Nat.not_lt.mpr hsz, hd, hj, hn, ha, ht]

/-- Full characterization of a successful PUT without a replacement image:
the photo field and the directory files are untouched, the text fields are
rewritten and updatedAt refreshed. -/
theorem putProfiles_success_nofile (id : String) (req : ProfileRequest)
    (fs : FsState) (tmp : String) (now : Nat) (e : DirEntry) (ex : ProfileData)
    (hf : req.file = none)
    (hd : findDir fs.store id = some e) (hj : e.json = JsonFile.valid ex)
    (hn : req.name.isNone = false) (ha : req.address.isNone = false)
    (ht : req.note.isNone = false) :
    putProfiles id req fs tmp now =
      (UpdateOutcome.updated,
        { store := setDir fs.store id
            { json := JsonFile.valid
                { ex with
                  name := jsTrim (req.name.getD "")
                  address := jsTrim (req.address.getD "")
                  contact := jsContact req.contact
                  date := req.date
                  note := jsTrim (req.note.getD "")
                  updatedAt := now }
              files := e.files }
          temp := fs.temp }) := by
  unfold putProfiles
  rw [hf]
  simp [hd, hj, hn, ha, ht]

def fsExist : FsState :=
  { store := [(idA, { json := JsonFile.valid dA, files := ["photo.jpg"] })], temp := [] }

def reqUpd : ProfileRequest :=
  { name := some "Ann B", address := some "Elm 9", contact := none,
    date := some "2024-02-02", note := some "bye", file := some fPng }

def reqUpdNoFile : ProfileRequest := { reqUpd with file := none }

/-- C5: a successful update on an existing id answers updated, refreshes
updatedAt to the current instant, and handles the photo exactly as the
upload dictates: with a replacement image the old photo file is removed
(erase tolerates its absence), the new image is stored under the
normalized name which becomes the photo field; without one the photo field
and the directory files are unchanged. -/
theorem C5_update (id : String) (req : ProfileRequest) (fs : FsState) (tmp : String)
    (now : Nat) (e : DirEntry) (ex : ProfileData)
    (hd : findDir fs.store id = some e) (hj : e.json = JsonFile.valid ex)
    (hok : ∀ f, req.file = some f → multerAccepts f)
    (hn : req.name.isNone = false) (ha : req.address.isNone = false)
    (ht : req.note.isNone = false) :
    ∃ e2 d, (putProfiles id req fs tmp now).1 = UpdateOutcome.updated ∧
      findDir (putProfiles id req fs tmp now).2.store id = some e2 ∧
      e2.json = JsonFile.valid d ∧
      d.updatedAt = now ∧
      (req.file = none → d.photo = ex.photo ∧ e2.files = e.files) ∧
      (∀ f, req.file = some f →
        d.photo = normPhotoName f.originalname ∧
        e2.files = normPhotoName f.originalname :: e.files.erase ex.photo) := by
  cases hf : req.file with
  | none =>
      rw [putProfiles_success_nofile id req fs tmp now e ex hf hd hj hn ha ht]
      refine ⟨_, _, rfl, findDir_setDir fs.store id e _ hd, rfl, rfl, ?_, ?_⟩
      · intro _
        exact ⟨rfl, rfl⟩
      · intro f h
        simp at h
  | some f =>
      rw [putProfiles_success_file id req f fs tmp now e ex hf (hok f hf) hd hj hn ha ht]
      refine ⟨_, _, rfl, findDir_setDir fs.store id e _ hd, rfl, rfl, ?_, ?_⟩
      · intro h
        simp at h
      · intro f2 h
        rw [← Option.some.inj h]
        exact ⟨rfl, rfl⟩

/-- Witness for C5_update: replacing the jpg photo of the stored profile
with a png upload. -/
theorem C5_update_witness :
    ∃ e2 d, (putProfiles idA reqUpd fsExist tmpA nowA).1 = UpdateOutcome.updated ∧
      findDir (putProfiles idA reqUpd fsExist tmpA nowA).2.store idA = some e2 ∧
      e2.json = JsonFile.valid d ∧
      d.updatedAt = nowA ∧
      (reqUpd.file = none → d.photo = dA.photo ∧
        e2.files = ["photo.jpg"]) ∧
      (∀ f, reqUpd.file = some f →
        d.photo = normPhotoName f.originalname ∧
        e2.files = normPhotoName f.originalname :: (["photo.jpg"].erase dA.photo)) :=
  C5_update idA reqUpd fsExist tmpA nowA
    { json := JsonFile.valid dA, files := ["photo.jpg"] } dA
    (by rfl) (by rfl)
    (by
      intro f hf
      have hsome : some fPng = some f := hf
      rw [← Option.some.inj hsome]
      decide)
    (by rfl) (by rfl) (by rfl)

/-- C10: a successful update keeps id and createdAt, rewrites name,
address, contact, date, note and updatedAt from the request, and rewrites
photo exactly when a replacement image was uploaded — since a record
consists of precisely these nine fields, nothing else changes. -/
theorem C10_update_frame (id : String) (req : ProfileRequest) (fs : FsState) (tmp : String)
    (now : Nat) (e : DirEntry) (ex : ProfileData)
    (hd : findDir fs.store id = some e) (hj : e.json = JsonFile.valid ex)
    (hok : ∀ f, req.file = some f → multerAccepts f)
    (hn : req.name.isNone = false) (ha : req.address.isNone = false)
    (ht : req.note.isNone = false) :
    ∃ e2 d, (putProfiles id req fs tmp now).1 = UpdateOutcome.updated ∧
      findDir (putProfiles id req fs tmp now).2.store id = some e2 ∧
      e2.json = JsonFile.valid d ∧
      d.id = ex.id ∧
      d.createdAt = ex.createdAt ∧
      d.name = jsTrim (req.name.getD "") ∧
      d.address = jsTrim (req.address.getD "") ∧
      d.contact = jsContact req.contact ∧
      d.date = req.date ∧
      d.note = jsTrim (req.note.getD "") ∧
      d.updatedAt = now ∧
      (req.file = none → d.photo = ex.photo) ∧
      (∀ f, req.file = some f → d.photo = normPhotoName f.originalname) := by
  cases hf : req.file with
  | none =>
      rw [putProfiles_success_nofile id req fs tmp now e ex hf hd hj hn ha ht]
      refine ⟨_, _, rfl, findDir_setDir fs.store id e _ hd, rfl,
        rfl, rfl, rfl, rfl, rfl, rfl, rfl, rfl, fun _ => rfl, ?_⟩
      intro f h
      simp at h
  | some f =>
      rw [putProfiles_success_file id req f fs tmp now e ex hf (hok f hf) hd hj hn ha ht]
      refine ⟨_, _, rfl, findDir_setDir fs.store id e _ hd, rfl,
        rfl, rfl, rfl, rfl, rfl, rfl, rfl, rfl, ?_, ?_⟩
      · intro h
        simp at h
      · intro f2 h
        rw [← Option.some.inj h]

/-- Witness for C10_update_frame: a text-only update of the stored
profile. -/
theorem C10_update_frame_witness :
    ∃ e2 d, (putProfiles idA reqUpdNoFile fsExist tmpA nowA).1 = UpdateOutcome.updated ∧
      findDir (putProfiles idA reqUpdNoFile fsExist tmpA nowA).2.store idA = some e2 ∧
      e2.json = JsonFile.valid d ∧
      d.id = dA.id ∧
      d.createdAt = dA.createdAt ∧
      d.name = jsTrim (reqUpdNoFile.name.getD "") ∧
      d.address = jsTrim (reqUpdNoFile.address.getD "") ∧
      d.contact = jsContact reqUpdNoFile.contact ∧
      d.date = reqUpdNoFile.date ∧
      d.note = jsTrim (reqUpdNoFile.note.getD "") ∧
      d.updatedAt = nowA ∧
      (reqUpdNoFile.file = none → d.photo = dA.photo) ∧
      (∀ f, reqUpdNoFile.file = some f → d.photo = normPhotoName f.originalname) :=
  C10_update_frame idA reqUpdNoFile fsExist tmpA nowA
    { json := JsonFile.valid dA, files := ["photo.jpg"] } dA
    (by rfl) (by rfl)
    (by
      intro f hf
      simp [reqUpdNoFile, reqUpd] at hf)
    (by rfl) (by rfl) (by rfl)

/-- The record Create builds from reqNoExt: the extensionless upload name
yields the bare filename photo, with no extension at all. -/
def dNoExt : ProfileData :=
  { id := newIdA, name := "Ann", address := "Elm 1", contact := none,
    photo := "photo", date := some "2024-01-01", note := "hello",
    createdAt := nowA, updatedAt := nowA }

/-- The record Create builds from reqWsContact: the whitespace-only
contact is stored as the empty string. -/
def dWsC : ProfileData :=
  { id := newIdA, name := "Ann", address := "Elm 1", contact := some emptyStr,
    photo := "photo.jpg", date := some "2024-01-01", note := "hello",
    createdAt := nowA, updatedAt := nowA }

/-- C8 (counterexample): creating with an upload named pic (no extension)
stores the photo field as bare photo, which contains no dot — the stored
photo filename is not of the form photo.<ext>. -/
theorem C8_counterexample :
    (postProfiles reqNoExt fsEmpty tmpA newIdA nowA).1 = CreateOutcome.created newIdA ∧
    (postProfiles reqNoExt fsEmpty tmpA newIdA nowA).2.store =
      [(newIdA, { json := JsonFile.valid dNoExt, files := [dNoExt.photo] })] ∧
    ('.') ∉ dNoExt.photo.toList := by
  exact ⟨by rfl, by decide, by decide⟩

/-- C8 (amended): every photo field stored by a successful Create, and by
a successful Update carrying a replacement image, equals photo plus the
lowercased extension of the uploaded original name — which is the bare
name photo, with no extension, when the original name had none. -/
theorem C8_photo_name :
    (∀ (req : ProfileRequest) (f : UploadedFile) (fs : FsState) (tmp newId : String)
        (now : Nat),
      req.file = some f → multerAccepts f →
      falsyStr req.name = false → falsyStr req.address = false →
      falsyStr req.date = false → falsyStr req.note = false →
      ∃ d, (postProfiles req fs tmp newId now).2.store =
          fs.store ++ [(newId, { json := JsonFile.valid d, files := [d.photo] })] ∧
        d.photo = "photo" ++ lowerStr (extname f.originalname)) ∧
    (∀ (id : String) (req : ProfileRequest) (f : UploadedFile) (fs : FsState)
        (tmp : String) (now : Nat) (e : DirEntry) (ex : ProfileData),
      req.file = some f → multerAccepts f →
      findDir fs.store id = some e → e.json = JsonFile.valid ex →
      req.name.isNone = false → req.address.isNone = false → req.note.isNone = false →
      ∃ d, (putProfiles id req fs tmp now).2.store =
          setDir fs.store id
            { json := JsonFile.valid d, files := d.photo :: e.files.erase ex.photo } ∧
        d.photo = "photo" ++ lowerStr (extname f.originalname)) := by
  constructor
  · intro req f fs tmp newId now hf hacc hn ha hd ht
    rw [postProfiles_success req f fs tmp newId now hf hacc hn ha hd ht]
    exact ⟨_, rfl, rfl⟩
  · intro id req f fs tmp now e ex hf hacc hd hj hn ha ht
    rw [putProfiles_success_file id req f fs tmp now e ex hf hacc hd hj hn ha ht]
    exact ⟨_, rfl, rfl⟩

/-- Witness for C8_photo_name: the extensionless create. -/
theorem C8_photo_name_witness :
    ∃ d, (postProfiles reqNoExt fsEmpty tmpA newIdA nowA).2.store =
        fsEmpty.store ++ [(newIdA, { json := JsonFile.valid d, files := [d.photo] })] ∧
      d.photo = "photo" ++ lowerStr (extname fNoExt.originalname) :=
  C8_photo_name.1 reqNoExt fNoExt fsEmpty tmpA newIdA nowA (by rfl) (by decide)
    (by decide) (by decide) (by decide) (by decide)

/-- C9 (counterexample): a whitespace-only contact is truthy, so Create
stores contact as the trimmed empty string rather than the null marker. -/
theorem C9_counterexample :
    (postProfiles reqWsContact fsEmpty tmpA newIdA nowA).1 = CreateOutcome.created newIdA ∧
    (postProfiles reqWsContact fsEmpty tmpA newIdA nowA).2.store =
      [(newIdA, { json := JsonFile.valid dWsC, files := [dWsC.photo] })] ∧
    dWsC.contact = some emptyStr := by
  exact ⟨by rfl, by decide, by rfl⟩

/-- C9 (amended): on both Create and Update, an absent or empty-string
contact is stored as the null marker, while any other value — including a
whitespace-only one — is stored trimmed, so a whitespace-only contact
becomes the stored empty string. -/
theorem C9_contact_norm :
    (∀ (req : ProfileRequest) (f : UploadedFile) (fs : FsState) (tmp newId : String)
        (now : Nat),
      req.file = some f → multerAccepts f →
      falsyStr req.name = false → falsyStr req.address = false →
      falsyStr req.date = false → falsyStr req.note = false →
      ∃ d, (postProfiles req fs tmp newId now).2.store =
          fs.store ++ [(newId, { json := JsonFile.valid d, files := [d.photo] })] ∧
        d.contact = (match req.contact with
          | none => none
          | some s => if strIsEmpty s then none else some (jsTrim s))) ∧
    (∀ (id : String) (req : ProfileRequest) (fs : FsState) (tmp : String)
        (now : Nat) (e : DirEntry) (ex : ProfileData),
      findDir fs.store id = some e → e.json = JsonFile.valid ex →
      (∀ f, req.file = some f → multerAccepts f) →
      req.name.isNone = false → req.address.isNone = false → req.note.isNone = false →
      ∃ e2 d, findDir (putProfiles id req fs tmp now).2.store id = some e2 ∧
        e2.json = JsonFile.valid d ∧
        d.contact = (match req.contact with
          | none => none
          | some s => if strIsEmpty s then none else some (jsTrim s))) := by
  constructor
  · intro req f fs tmp newId now hf hacc hn ha hd ht
    rw [postProfiles_success req f fs tmp newId now hf hacc hn ha hd ht]
    refine ⟨_, rfl, ?_⟩
    cases req.contact <;> rfl
  · intro id req fs tmp now e ex hd hj hok hn ha ht
    cases hf : req.file with
    | none =>
        rw [putProfiles_success_nofile id req fs tmp now e ex hf hd hj hn ha ht]
        refine ⟨_, _, findDir_setDir fs.store id e _ hd, rfl, ?_⟩
        cases req.contact <;> rfl
    | some f =>
        rw [putProfiles_success_file id req f fs tmp now e ex hf (hok f hf) hd hj hn ha ht]
        refine ⟨_, _, findDir_setDir fs.store id e _ hd, rfl, ?_⟩
        cases req.contact <;> rfl

/-- Witness for C9_contact_norm: the whitespace-contact create. -/
theorem C9_contact_norm_witness :
    ∃ d, (postProfiles reqWsContact fsEmpty tmpA newIdA nowA).2.store =
        fsEmpty.store ++ [(newIdA, { json := JsonFile.valid d, files := [d.photo] })] ∧
      d.contact = (match reqWsContact.contact with
        | none => none
        | some s => if strIsEmpty s then none else some (jsTrim s)) :=
  C9_contact_norm.1 reqWsContact fImg fsEmpty tmpA newIdA nowA (by rfl) (by decide)
    (by decide) (by decide) (by decide) (by decide)
